import Mathlib

/-!
Shallow embedding of the message-broker-backed dataset subsystem of the
Cognitive-Framework repository (src/app/services/dataset_service.py and the
models in src/app/models).  Database tables are lists of row structures; a
SQLAlchemy session is modelled by explicit state passing: every service
operation takes the persisted database and returns the database after the
call together with an Except value standing for return-or-raise.  Commit is
the single persistence point of each operation and rollback returns the
entry state, mirroring the rollback calls in every exception handler of the
source.  Timestamps (creation_date and friends) are elided: no claim
mentions them.
-/

namespace Cog

/-! Constants from src/config/constants.py. -/

def DATA_SOURCE_TYPE_FILE : Nat := 0

def DATA_SOURCE_TYPE_TABLE : Nat := 1

def BROKER_DATA_SOURCE_TYPE : Nat := 2

def USER_ID : Nat := 0

def DEFAULT_STREAM_DATA_COUNT : Nat := 200

def STREAM_TIMEOUT : Nat := 10000

/-- Default of the max_poll_records configuration key of the kafka-python
KafkaConsumer: this value caps a poll call whose max_records argument is
None.  Part of the modelled environment (the kafka client library is not in
the repository). -/
def MAX_POLL_RECORDS : Nat := 500

/-! Row types for the four tables (src/app/models). -/

/-- Row of the broker_details table (src/app/models/broker_details.py). -/
structure BrokerDetails where
  id : Nat
  broker_name : String
  broker_ip : String
  broker_port : Nat
deriving Repr, DecidableEq

/-- Row of the topic_details table (src/app/models/topic_details.py).  The
topic_schema JSON payload is opaque to the subsystem and modelled as a
string. -/
structure TopicDetails where
  id : Nat
  topic_name : String
  topic_schema : String
  broker_id : Nat
deriving Repr, DecidableEq

/-- Row of the dataset_info table, restricted to the fields this subsystem
reads or writes (src/app/models/dataset_info.py). -/
structure DatasetInfo where
  id : Nat
  user_id : Nat
  dataset_name : String
  description : String
  train_and_inference_type : Nat
  data_source_type : Nat
deriving Repr, DecidableEq

/-- Row of the dataset_topic_details link table
(src/app/models/dataset_topic_details.py). -/
structure DatasetTopicDetails where
  id : Nat
  topic_id : Nat
  dataset_id : Nat
deriving Repr, DecidableEq

/-- The persisted database.  The nextXId counters model the integer primary
key sequences. -/
structure DB where
  brokers : List BrokerDetails
  topics : List TopicDetails
  datasets : List DatasetInfo
  links : List DatasetTopicDetails
  nextBrokerId : Nat
  nextTopicId : Nat
  nextDatasetId : Nat
  nextLinkId : Nat
deriving Repr, DecidableEq

/-- Error taxonomy raised out of DatasetService methods
(src/app/utils/exceptions.py plus the SQLAlchemy exceptions the service
lets escape).  noResultFound is the application NoResultFound,
integrityError the application IntegrityError (its message carries the id
of the pre-existing row), multipleResultsFound the SQLAlchemy
MultipleResultsFound raised by one and one_or_none on several rows,
noMessagesFound the stream NoMessagesFound, sqlAlchemyError a generic
database failure, validationError a model-level validation failure and
kafkaError a kafka client failure. -/
inductive ServiceError where
  | noResultFound (msg : String)
  | integrityError (msg : String)
  | multipleResultsFound
  | noMessagesFound (msg : String)
  | sqlAlchemyError (msg : String)
  | validationError (msg : String)
  | kafkaError (msg : String)
deriving Repr, DecidableEq

/-! Response schemas (src/app/schemas). -/

/-- BrokerResponse (src/app/schemas/broker_details.py). -/
structure BrokerResponse where
  id : Nat
  broker_name : String
  broker_ip : String
  broker_port : Nat
deriving Repr, DecidableEq

/-- TopicResponse (src/app/schemas/topic_details.py). -/
structure TopicResponse where
  id : Nat
  topic_name : String
  topic_schema : String
  broker_id : Nat
deriving Repr, DecidableEq

/-- DatasetInfoDetails (src/app/schemas/dataset_info.py); the field
train_and_inference_type carries the alias dataset_type. -/
structure DatasetInfoDetails where
  id : Nat
  dataset_name : String
  description : String
  train_and_inference_type : Nat
  data_source_type : Nat
deriving Repr, DecidableEq

/-- DatasetBrokerTopicResponse (src/app/schemas/dataset_broker_topic.py). -/
structure DatasetBrokerTopicResponse where
  dataset : DatasetInfoDetails
  broker_details : BrokerResponse
  topic_details : TopicResponse
deriving Repr, DecidableEq

def BrokerResponse.from_orm (b : BrokerDetails) : BrokerResponse :=
  { id := b.id, broker_name := b.broker_name, broker_ip := b.broker_ip,
    broker_port := b.broker_port }

def TopicResponse.from_orm (t : TopicDetails) : TopicResponse :=
  { id := t.id, topic_name := t.topic_name, topic_schema := t.topic_schema,
    broker_id := t.broker_id }

/-- DatasetService.dataset_message_response: assembles the composite view
from the three per-entity details (dataset_service.py). -/
def dataset_message_response (dataset_detail : DatasetInfoDetails)
    (broker_detail : BrokerResponse) (topic_detail : TopicResponse) :
    DatasetBrokerTopicResponse :=
  { dataset :=
      { id := dataset_detail.id, dataset_name := dataset_detail.dataset_name,
        description := dataset_detail.description,
        train_and_inference_type := dataset_detail.train_and_inference_type,
        data_source_type := dataset_detail.data_source_type },
    broker_details := broker_detail,
    topic_details := topic_detail }

/-! Request schemas (src/app/schemas). -/

/-- BrokerBase (src/app/schemas/broker_details.py). -/
structure BrokerBase where
  name : String
  ip : String
  port : Nat
deriving Repr, DecidableEq

/-- TopicBase (src/app/schemas/topic_details.py). -/
structure TopicBase where
  name : String
  schema_definition : String
deriving Repr, DecidableEq

/-- DatasetBrokerTopicBase (src/app/schemas/dataset_broker_topic.py). -/
structure DatasetBrokerTopicBase where
  name : String
  description : String
  dataset_type : Nat
  broker_id : Nat
  topic_id : Nat
deriving Repr, DecidableEq

/-- BrokerUpdate (src/app/schemas/broker_details.py): every field optional;
a missing field arrives as None. -/
structure BrokerUpdate where
  broker_name : Option String
  broker_ip : Option String
  broker_port : Option Nat
deriving Repr, DecidableEq

/-! Service operations (src/app/services/dataset_service.py). -/

/-- DatasetService.register_broker.  The ip_ok flag stands for acceptance
of data.ip by the ipaddress.ip_address validator attached to
BrokerDetails.broker_ip (the validator is the Python standard library, not
repository code); a rejected address raises before any row is added.  The
insert-commit raises IntegrityError exactly when the unique constraint
unique_broker_per_dataset on broker_name is violated; the handler rolls
back, re-queries the brokers filtered by broker_name with one, and raises
the application IntegrityError whose message carries the id of the
pre-existing broker. -/
def register_broker (db : DB) (data : BrokerBase) (ip_ok : Bool) :
    DB × Except ServiceError BrokerResponse :=
  if ip_ok = false then
    (db, .error (.validationError ("Invalid IP address format: " ++ data.ip)))
  else if db.brokers.any (fun b => b.broker_name == data.name) then
    match db.brokers.filter (fun b => b.broker_name == data.name) with
    | [existing_broker] =>
        (db, .error (.integrityError
          ("Broker id " ++ toString existing_broker.id ++ " already exists.")))
    | [] => (db, .error (.noResultFound ("No row was found when one was required")))
    | _ => (db, .error .multipleResultsFound)
  else
    let broker_details : BrokerDetails :=
      { id := db.nextBrokerId, broker_name := data.name, broker_ip := data.ip,
        broker_port := data.port }
    ({ db with brokers := db.brokers ++ [broker_details],
               nextBrokerId := db.nextBrokerId + 1 },
     .ok (BrokerResponse.from_orm broker_details))

/-- DatasetService.register_topic.  The broker is looked up with
one_or_none; a missing broker raises the application NoResultFound, which
subclasses the SQLAlchemy NoResultFound and is therefore re-raised by the
NoRowFound handler with the message Broker Id ... not found.  The
insert-commit raises IntegrityError exactly when unique_topic_per_broker on
(topic_name, broker_id) is violated; the recovery query inside that handler
filters by topic_name ONLY and calls one, so with the same topic name under
several brokers it raises MultipleResultsFound, which propagates out of the
handler. -/
def register_topic (db : DB) (broker_id : Nat) (data : TopicBase) :
    DB × Except ServiceError TopicResponse :=
  match db.brokers.filter (fun b => b.id == broker_id) with
  | [] =>
      (db, .error (.noResultFound
        ("Broker Id " ++ toString broker_id ++ " not found.")))
  | _ :: _ :: _ => (db, .error .multipleResultsFound)
  | [_] =>
    if db.topics.any (fun t => t.topic_name == data.name && t.broker_id == broker_id) then
      match db.topics.filter (fun t => t.topic_name == data.name) with
      | [existing_topic] =>
          (db, .error (.integrityError
            ("Topic id " ++ toString existing_topic.id ++ " already exists.")))
      | [] => (db, .error (.noResultFound ("No row was found when one was required")))
      | _ => (db, .error .multipleResultsFound)
    else
      let topic_details : TopicDetails :=
        { id := db.nextTopicId, topic_name := data.name,
          topic_schema := data.schema_definition, broker_id := broker_id }
      ({ db with topics := db.topics ++ [topic_details],
                 nextTopicId := db.nextTopicId + 1 },
       .ok (TopicResponse.from_orm topic_details))

/-- DatasetService.register_dataset_message_details.  Broker and topic are
looked up with one_or_none (no check that the topic belongs to the given
broker).  The dataset row is added and flushed (receiving its id), the link
row is added, then both are committed together; the commit_ok flag stands
for the fate of that single commit, and every failure handler rolls the
session back to the entry state.  The returned composite view pairs the
caller-supplied broker row with the topic row. -/
def register_dataset_message_details (db : DB) (data : DatasetBrokerTopicBase)
    (commit_ok : Bool) : DB × Except ServiceError DatasetBrokerTopicResponse :=
  match db.brokers.filter (fun b => b.id == data.broker_id) with
  | [] =>
      (db, .error (.noResultFound
        ("Broker with name " ++ toString data.broker_id ++ " not found.")))
  | _ :: _ :: _ => (db, .error .multipleResultsFound)
  | [broker_info] =>
    match db.topics.filter (fun t => t.id == data.topic_id) with
    | [] =>
        (db, .error (.noResultFound
          ("Topic with name " ++ toString data.topic_id ++ " not found.")))
    | _ :: _ :: _ => (db, .error .multipleResultsFound)
    | [topic_info] =>
      let dataset_info : DatasetInfo :=
        { id := db.nextDatasetId, user_id := USER_ID,
          dataset_name := data.name, description := data.description,
          train_and_inference_type := data.dataset_type,
          data_source_type := BROKER_DATA_SOURCE_TYPE }
      let dataset_topic_info : DatasetTopicDetails :=
        { id := db.nextLinkId, topic_id := data.topic_id,
          dataset_id := dataset_info.id }
      if commit_ok then
        let dataset_detail : DatasetInfoDetails :=
          { id := dataset_info.id, dataset_name := dataset_info.dataset_name,
            description := dataset_info.description,
            train_and_inference_type := dataset_info.train_and_inference_type,
            data_source_type := dataset_info.data_source_type }
        ({ db with datasets := db.datasets ++ [dataset_info],
                   links := db.links ++ [dataset_topic_info],
                   nextDatasetId := db.nextDatasetId + 1,
                   nextLinkId := db.nextLinkId + 1 },
         .ok (dataset_message_response dataset_detail
                (BrokerResponse.from_orm broker_info)
                (TopicResponse.from_orm topic_info)))
      else
        (db, .error (.sqlAlchemyError ("commit failed")))

/-- The four-table join of DatasetService.fetch_dataset_message_details:
DatasetInfo joined to DatasetTopicDetails on dataset_id, to TopicDetails on
topic_id, to BrokerDetails on the broker_id OF THE TOPIC, filtered by the
dataset id. -/
def messageJoin (db : DB) (dataset_id : Nat) :
    List (DatasetInfo × BrokerDetails × TopicDetails) :=
  (db.datasets.filter (fun d => d.id == dataset_id)).flatMap (fun d =>
    (db.links.filter (fun l => l.dataset_id == d.id)).flatMap (fun l =>
      (db.topics.filter (fun t => t.id == l.topic_id)).flatMap (fun t =>
        (db.brokers.filter (fun b => b.id == t.broker_id)).map
          (fun b => (d, b, t)))))

/-- DatasetService.fetch_dataset_message_details: runs the join with one
and assembles the composite view; an empty join raises the application
NoResultFound with the message Dataset not found for the id. -/
def fetch_dataset_message_details (db : DB) (dataset_id : Nat) :
    DB × Except ServiceError DatasetBrokerTopicResponse :=
  match messageJoin db dataset_id with
  | [] =>
      (db, .error (.noResultFound
        ("Dataset not found for the id " ++ toString dataset_id)))
  | [(d, b, t)] =>
      (db, .ok (dataset_message_response
        { id := d.id, dataset_name := d.dataset_name,
          description := d.description,
          train_and_inference_type := d.train_and_inference_type,
          data_source_type := d.data_source_type }
        (BrokerResponse.from_orm b) (TopicResponse.from_orm t)))
  | _ => (db, .error .multipleResultsFound)

/-- DatasetService.topic_deregister: looks up the topic with one, then
session.delete cascades over the dataset_topic_info relationship declared
with cascade all, delete on TopicDetails, deleting every DatasetTopicDetails
row whose topic_id references the topic, then the topic row, then commits. -/
def topic_deregister (db : DB) (topic_id : Nat) :
    DB × Except ServiceError Unit :=
  match db.topics.filter (fun t => t.id == topic_id) with
  | [] =>
      (db, .error (.noResultFound
        ("Topic not found for the id " ++ toString topic_id)))
  | _ :: _ :: _ => (db, .error .multipleResultsFound)
  | [topic_details] =>
      ({ db with
          topics := db.topics.filter (fun t => !(t.id == topic_details.id)),
          links := db.links.filter (fun l => !(l.topic_id == topic_details.id)) },
       .ok ())

/-- DatasetService.dataset_message_deregister: looks up the dataset with
one filtered by id AND data_source_type equal to BROKER_DATA_SOURCE_TYPE,
looks up its optional link with one_or_none, deletes the link first when
present, then the dataset, and commits both deletes together; commit_ok
stands for the fate of that single commit (failure rolls back to the entry
state). -/
def dataset_message_deregister (db : DB) (dataset_id : Nat)
    (commit_ok : Bool) : DB × Except ServiceError Unit :=
  match db.datasets.filter
      (fun d => d.id == dataset_id && d.data_source_type == BROKER_DATA_SOURCE_TYPE) with
  | [] =>
      (db, .error (.noResultFound
        ("Dataset not found for id " ++ toString dataset_id)))
  | _ :: _ :: _ => (db, .error .multipleResultsFound)
  | [dataset_details] =>
    match db.links.filter (fun l => l.dataset_id == dataset_details.id) with
    | _ :: _ :: _ => (db, .error .multipleResultsFound)
    | [] =>
        if commit_ok then
          ({ db with
              datasets := db.datasets.filter
                (fun d => !(d.id == dataset_details.id)) },
           .ok ())
        else (db, .error (.sqlAlchemyError ("commit failed")))
    | [topic_details] =>
        if commit_ok then
          ({ db with
              links := db.links.filter (fun l => !(l.id == topic_details.id)),
              datasets := db.datasets.filter
                (fun d => !(d.id == dataset_details.id)) },
           .ok ())
        else (db, .error (.sqlAlchemyError ("commit failed")))

/-- The field-by-field assignment loop of DatasetService._update_record on
a broker row: setattr is executed only for patch entries whose value is not
None, and the patch dictionary of BrokerUpdate has no id key. -/
def applyBrokerUpdate (record : BrokerDetails) (u : BrokerUpdate) :
    BrokerDetails :=
  { record with
      broker_name := u.broker_name.getD record.broker_name,
      broker_ip := u.broker_ip.getD record.broker_ip,
      broker_port := u.broker_port.getD record.broker_port }

/-- DatasetService.update_broker, through _update_record on BrokerDetails:
the row is looked up with one, the non-None patch fields are assigned, and
the commit raises IntegrityError exactly when the updated broker_name
collides with a different row under unique_broker_per_dataset (the handler
reports the misleading message No BrokerDetails found for ID and leaves the
database unchanged). -/
def update_broker (db : DB) (broker_id : Nat) (broker_data : BrokerUpdate) :
    DB × Except ServiceError BrokerResponse :=
  match db.brokers.filter (fun b => b.id == broker_id) with
  | [] =>
      (db, .error (.noResultFound
        ("No BrokerDetails found for ID: " ++ toString broker_id)))
  | _ :: _ :: _ => (db, .error .multipleResultsFound)
  | [record] =>
    let updated := applyBrokerUpdate record broker_data
    if db.brokers.any
        (fun b => !(b.id == record.id) && b.broker_name == updated.broker_name) then
      (db, .error (.integrityError
        ("No BrokerDetails found for ID: " ++ toString broker_id)))
    else
      ({ db with brokers := (db.brokers.map
          (fun b => if b.id == record.id then applyBrokerUpdate b broker_data else b)) },
       .ok (BrokerResponse.from_orm updated))

/-! The stream reader (DatasetService.fetch_dataset_topic_data and the
private helpers _get_topic_and_broker_details and __fetch_stream_data). -/

/-- BrokerTopicDetails (src/app/schemas/dataset_broker_topic.py). -/
structure BrokerTopicDetails where
  topic_name : String
  broker_ip : String
  broker_port : Nat
deriving Repr, DecidableEq

/-- DatasetTopicData (src/app/schemas/dataset_broker_topic.py).  Decoded
message payloads are opaque to every claim and modelled as naturals. -/
structure DatasetTopicData where
  dataset_id : Nat
  records : List Nat
  record_count : Nat
  topic_name : String
deriving Repr, DecidableEq

/-- Events on the per-request Kafka consumer session, recorded in the
order the source reaches them. -/
inductive StreamEvent where
  | consumerOpened
  | consumerClosed
deriving Repr, DecidableEq

/-- One invocation of the external Kafka environment: whether the
KafkaConsumer constructor raises (before any session exists), whether the
poll or a message decode inside it raises, and otherwise the messages that
arrive during the timeout window, keyed by partition.  Kafka returns only
partitions that fetched at least one record, so every listed batch is
nonempty; theorems that need that fact state it as a hypothesis. -/
structure StreamEnv where
  constructor_raises : Bool
  poll_raises : Bool
  partitions : List (Nat × List Nat)
deriving Repr, DecidableEq

/-- The record accumulation of a kafka-python poll call: batches are taken
partition by partition until max_records records have been collected. -/
def fetched_records : Nat → List (Nat × List Nat) → List (Nat × List Nat)
  | _, [] => []
  | budget, (p, ms) :: rest =>
      if budget = 0 then []
      else (p, ms.take budget) ::
        fetched_records (budget - (ms.take budget).length) rest

/-- Result of DatasetService.__fetch_stream_data together with the
consumer-session events of the call. -/
structure StreamFetchOutcome where
  result : Except ServiceError (List Nat)
  events : List StreamEvent
deriving Repr

/-- DatasetService.__fetch_stream_data.  The KafkaConsumer is constructed
OUTSIDE the try block: a constructor failure raises with no session open.
From the try block onward every path runs the finally clause closing the
consumer: the poll-raises path, the empty-poll path raising NoMessagesFound,
and the success path flattening the partition batches in order.  The
max_records argument handed to poll is no_of_records itself; kafka-python
replaces None by its max_poll_records configuration default. -/
def fetch_stream_data (env : StreamEnv) (topic_details : BrokerTopicDetails)
    (no_of_records : Option Nat) : StreamFetchOutcome :=
  if env.constructor_raises then
    { result := .error (.kafkaError ("NoBrokersAvailable")), events := [] }
  else
    let max_records := no_of_records.getD MAX_POLL_RECORDS
    if env.poll_raises then
      { result := .error (.kafkaError ("poll failed")),
        events := [.consumerOpened, .consumerClosed] }
    else
      let messages := fetched_records max_records env.partitions
      if messages.isEmpty then
        { result := .error (.noMessagesFound
            ("No messages in stream topic: " ++ topic_details.topic_name)),
          events := [.consumerOpened, .consumerClosed] }
      else
        { result := .ok (messages.flatMap (fun pm => pm.2)),
          events := [.consumerOpened, .consumerClosed] }

/-- DatasetService._get_topic_and_broker_details: link, topic and broker
are resolved hop by hop with one_or_none, each missing hop raising the
application NoResultFound. -/
def get_topic_and_broker_details (db : DB) (dataset_id : Nat) :
    Except ServiceError BrokerTopicDetails :=
  match db.links.filter (fun l => l.dataset_id == dataset_id) with
  | [] =>
      .error (.noResultFound
        ("No topic association for dataset ID: " ++ toString dataset_id))
  | _ :: _ :: _ => .error .multipleResultsFound
  | [dataset_topic_detail] =>
    match db.topics.filter (fun t => t.id == dataset_topic_detail.topic_id) with
    | [] =>
        .error (.noResultFound
          ("Topic not found for ID: " ++ toString dataset_topic_detail.topic_id))
    | _ :: _ :: _ => .error .multipleResultsFound
    | [topic_detail] =>
      match db.brokers.filter (fun b => b.id == topic_detail.broker_id) with
      | [] =>
          .error (.noResultFound
            ("Broker not found for ID: " ++ toString topic_detail.broker_id))
      | _ :: _ :: _ => .error .multipleResultsFound
      | [broker_detail] =>
          .ok { topic_name := topic_detail.topic_name,
                broker_ip := broker_detail.broker_ip,
                broker_port := broker_detail.broker_port }

/-- Result of DatasetService.fetch_dataset_topic_data together with the
consumer-session events of the call. -/
structure TopicDataOutcome where
  result : Except ServiceError DatasetTopicData
  events : List StreamEvent
deriving Repr

/-- DatasetService.fetch_dataset_topic_data: resolves the broker and topic,
reads the stream, and wraps the records; the NoRowFound handler replaces
every resolution failure message by Dataset not found for ID, the
NoMessagesFound handler re-raises unchanged, and every other exception is
re-raised unchanged.  The no_of_records argument is forwarded untouched
(the API layer passes None when the caller left it unspecified). -/
def fetch_dataset_topic_data (db : DB) (env : StreamEnv) (dataset_id : Nat)
    (no_of_records : Option Nat) : TopicDataOutcome :=
  match get_topic_and_broker_details db dataset_id with
  | .error (.noResultFound _) =>
      { result := .error (.noResultFound
          ("Dataset not found for ID " ++ toString dataset_id)),
        events := [] }
  | .error e => { result := .error e, events := [] }
  | .ok topic_details =>
    let fs := fetch_stream_data env topic_details no_of_records
    match fs.result with
    | .error e => { result := .error e, events := fs.events }
    | .ok records =>
        { result := .ok { dataset_id := dataset_id, records := records,
                          record_count := records.length,
                          topic_name := topic_details.topic_name },
          events := fs.events }

/-! Concrete fixtures used by closed theorems and witnesses. -/

def broker1 : BrokerDetails :=
  { id := 1, broker_name := "broker-1", broker_ip := "127.0.0.1",
    broker_port := 9092 }

def broker2 : BrokerDetails :=
  { id := 2, broker_name := "broker-2", broker_ip := "10.0.0.2",
    broker_port := 9093 }

def topic1 : TopicDetails :=
  { id := 1, topic_name := "telemetry", topic_schema := "s", broker_id := 1 }

/-- A second topic with the SAME name as topic1 but under broker 2, as the
unique constraint on (topic_name, broker_id) allows. -/
def topicDup : TopicDetails :=
  { id := 2, topic_name := "telemetry", topic_schema := "s", broker_id := 2 }

def dataset5 : DatasetInfo :=
  { id := 5, user_id := 0, dataset_name := "sensor-ds", description := "d",
    train_and_inference_type := 0,
    data_source_type := BROKER_DATA_SOURCE_TYPE }

def link1 : DatasetTopicDetails := { id := 1, topic_id := 1, dataset_id := 5 }

/-- Two brokers, one topic under broker 1, no datasets yet. -/
def dbBase : DB :=
  { brokers := [broker1, broker2], topics := [topic1], datasets := [],
    links := [], nextBrokerId := 3, nextTopicId := 2, nextDatasetId := 5,
    nextLinkId := 1 }

/-- One broker, one topic, one broker-sourced dataset linked to it. -/
def dbLinked : DB :=
  { brokers := [broker1], topics := [topic1], datasets := [dataset5],
    links := [link1], nextBrokerId := 2, nextTopicId := 2,
    nextDatasetId := 6, nextLinkId := 2 }

/-- Two brokers each carrying a topic named telemetry. -/
def dbDupTopics : DB :=
  { brokers := [broker1, broker2], topics := [topic1, topicDup],
    datasets := [], links := [], nextBrokerId := 3, nextTopicId := 3,
    nextDatasetId := 1, nextLinkId := 1 }

/-- Registration request naming broker 2 while topic 1 belongs to broker 1. -/
def dataMismatch : DatasetBrokerTopicBase :=
  { name := "sensor-ds", description := "d", dataset_type := 0,
    broker_id := 2, topic_id := 1 }

/-- A stream window in which 201 messages are ready on one partition. -/
def envMany : StreamEnv :=
  { constructor_raises := false, poll_raises := false,
    partitions := [(0, List.range 201)] }

/-- A stream window in which no message arrives before the deadline. -/
def envIdle : StreamEnv :=
  { constructor_raises := false, poll_raises := false, partitions := [] }

/-- A stream window delivering a single message. -/
def envOne : StreamEnv :=
  { constructor_raises := false, poll_raises := false,
    partitions := [(0, [7])] }

/-! Claim theorems. -/

/-- C10: register_dataset_message_details never checks that the topic
belongs to the supplied broker: registering dataset 5 against broker 2 and
topic 1 (owned by broker 1) succeeds, the persisted link references only
the topic, the registration view pairs the topic with the caller-supplied
broker 2, and a subsequent fetch_dataset_message_details on dataset 5
returns the owning broker 1, so the two views disagree on the broker. -/
theorem register_fetch_broker_mismatch :
    ∃ resp1 resp2,
      (register_dataset_message_details dbBase dataMismatch true).2 = .ok resp1 ∧
      (fetch_dataset_message_details
        (register_dataset_message_details dbBase dataMismatch true).1 5).2 = .ok resp2 ∧
      resp1.broker_details.id = 2 ∧ resp2.broker_details.id = 1 ∧
      resp1.broker_details ≠ resp2.broker_details ∧
      resp1.topic_details = resp2.topic_details ∧
      (register_dataset_message_details dbBase dataMismatch true).1.links =
        dbBase.links ++ [{ id := 1, topic_id := 1, dataset_id := 5 }] ∧
      topic1.broker_id = 1 ∧ dataMismatch.broker_id = 2 := by
  refine ⟨_, _, rfl, rfl, rfl, rfl, by decide, rfl, rfl, rfl, rfl⟩

set_option maxRecDepth 10000 in
/-- C3: with no_of_records unspecified the API layer passes None and the
service forwards it, so the DEFAULT_STREAM_DATA_COUNT default in the
signature of __fetch_stream_data never applies; poll is capped by the
kafka-python max_poll_records default instead, and a topic holding 201
ready messages yields 201 returned records, exceeding 200.  This
contradicts the docstrings (Defaults to 200; i.e 200 records). -/
theorem fetch_topic_data_ignores_default_cap :
    (fetch_dataset_topic_data dbLinked envMany 5 none).result =
      .ok { dataset_id := 5, records := List.range 201, record_count := 201,
            topic_name := "telemetry" } ∧
    DEFAULT_STREAM_DATA_COUNT = 200 ∧ MAX_POLL_RECORDS = 500 ∧
    200 < 201 := by
  exact ⟨by rfl, rfl, rfl, by decide⟩

/-- C4 counterexample: the name telemetry exists under broker 1 (topic id
1) and under broker 2 (topic id 2); registering telemetry under broker 1
again hits the unique constraint, but the recovery query of the handler
filters by topic name only, matches both rows, and its one call raises
MultipleResultsFound, which propagates instead of a Conflict error carrying
the pre-existing topic id.  No new row is created. -/
theorem register_topic_conflict_counterexample :
    register_topic dbDupTopics 1 { name := "telemetry", schema_definition := "s" } =
      (dbDupTopics, .error .multipleResultsFound) := by
  rfl

/-- C1: when broker_id and topic_id both resolve to existing rows,
register_dataset_message_details either persists exactly one new Dataset
row with the broker discriminator together with exactly one new link row
referencing it (leaving brokers and topics untouched), or, on a failure of
the two-row commit, persists neither and returns the database unchanged. -/
theorem register_dataset_message_details_atomic
    (db : DB) (data : DatasetBrokerTopicBase) (commit_ok : Bool)
    (hb : ∃ b, db.brokers.filter (fun x => x.id == data.broker_id) = [b])
    (ht : ∃ t, db.topics.filter (fun x => x.id == data.topic_id) = [t]) :
    (∃ resp ds link,
        register_dataset_message_details db data commit_ok =
          ({ db with datasets := db.datasets ++ [ds],
                     links := db.links ++ [link],
                     nextDatasetId := db.nextDatasetId + 1,
                     nextLinkId := db.nextLinkId + 1 }, .ok resp) ∧
        link.dataset_id = ds.id ∧ link.topic_id = data.topic_id ∧
        ds.data_source_type = BROKER_DATA_SOURCE_TYPE) ∨
    (∃ e, register_dataset_message_details db data commit_ok = (db, .error e)) := by
  obtain ⟨b, hb⟩ := hb
  obtain ⟨t, ht⟩ := ht
  unfold register_dataset_message_details
  rw [hb, ht]
  cases commit_ok with
  | false => exact Or.inr ⟨_, rfl⟩
  | true => exact Or.inl ⟨_, _, _, rfl, rfl, rfl, rfl⟩

/-- C1 witness: the atomicity theorem applied to dbBase with broker 1 and
topic 1 and a succeeding commit. -/
theorem register_dataset_message_details_atomic_witness :
    (∃ b, dbBase.brokers.filter
        (fun x => x.id == DatasetBrokerTopicBase.broker_id
          { name := "sensor-ds", description := "d", dataset_type := 0,
            broker_id := 1, topic_id := 1 }) = [b]) ∧
    (∃ t, dbBase.topics.filter
        (fun x => x.id == DatasetBrokerTopicBase.topic_id
          { name := "sensor-ds", description := "d", dataset_type := 0,
            broker_id := 1, topic_id := 1 }) = [t]) ∧
    ((∃ resp ds link,
        register_dataset_message_details dbBase
          { name := "sensor-ds", description := "d", dataset_type := 0,
            broker_id := 1, topic_id := 1 } true =
          ({ dbBase with datasets := dbBase.datasets ++ [ds],
                         links := dbBase.links ++ [link],
                         nextDatasetId := dbBase.nextDatasetId + 1,
                         nextLinkId := dbBase.nextLinkId + 1 }, .ok resp) ∧
        link.dataset_id = ds.id ∧
        link.topic_id = DatasetBrokerTopicBase.topic_id
          { name := "sensor-ds", description := "d", dataset_type := 0,
            broker_id := 1, topic_id := 1 } ∧
        ds.data_source_type = BROKER_DATA_SOURCE_TYPE) ∨
     (∃ e, register_dataset_message_details dbBase
          { name := "sensor-ds", description := "d", dataset_type := 0,
            broker_id := 1, topic_id := 1 } true = (dbBase, .error e))) :=
  ⟨⟨broker1, by decide⟩, ⟨topic1, by decide⟩,
   register_dataset_message_details_atomic dbBase
     { name := "sensor-ds", description := "d", dataset_type := 0,
       broker_id := 1, topic_id := 1 } true
     ⟨broker1, by decide⟩ ⟨topic1, by decide⟩⟩

/-- Every event trace of __fetch_stream_data that opens the consumer
session ends by closing it. -/
theorem stream_events_close (env : StreamEnv) (td : BrokerTopicDetails)
    (n : Option Nat)
    (h : StreamEvent.consumerOpened ∈ (fetch_stream_data env td n).events) :
    (fetch_stream_data env td n).events.getLast? =
      some StreamEvent.consumerClosed := by
  unfold fetch_stream_data at h ⊢
  by_cases hc : env.constructor_raises
  · simp [hc] at h
  · by_cases hp : env.poll_raises
    · simp [hc, hp]
    · simp [hc, hp]
      split <;> rfl

/-- C2: every invocation of fetch_dataset_topic_data that reaches the
point where the consumer session is opened closes that session on every
exit path: the normal return with records, the zero-record NoMessagesFound
path, and any exception raised during polling or message decoding. -/
theorem fetch_topic_data_closes_consumer
    (db : DB) (env : StreamEnv) (dataset_id : Nat) (n : Option Nat)
    (h : StreamEvent.consumerOpened ∈
      (fetch_dataset_topic_data db env dataset_id n).events) :
    (fetch_dataset_topic_data db env dataset_id n).events.getLast? =
      some StreamEvent.consumerClosed := by
  have hev : ∀ td, get_topic_and_broker_details db dataset_id = .ok td →
      (fetch_dataset_topic_data db env dataset_id n).events =
        (fetch_stream_data env td n).events := by
    intro td hres
    unfold fetch_dataset_topic_data
    rw [hres]
    cases hfs : (fetch_stream_data env td n).result <;> simp [hfs]
  have hemp : ∀ e, get_topic_and_broker_details db dataset_id = .error e →
      (fetch_dataset_topic_data db env dataset_id n).events = [] := by
    intro e hres
    unfold fetch_dataset_topic_data
    rw [hres]
    cases e <;> rfl
  cases hres : get_topic_and_broker_details db dataset_id with
  | error e =>
      rw [hemp e hres] at h
      simp at h
  | ok td =>
      rw [hev td hres] at h ⊢
      exact stream_events_close env td n h

/-- C2 witness: the closing theorem applied to the linked database and a
window delivering one message. -/
theorem fetch_topic_data_closes_consumer_witness :
    StreamEvent.consumerOpened ∈
      (fetch_dataset_topic_data dbLinked envOne 5 (some 10)).events ∧
    (fetch_dataset_topic_data dbLinked envOne 5 (some 10)).events.getLast? =
      some StreamEvent.consumerClosed :=
  ⟨by decide, fetch_topic_data_closes_consumer dbLinked envOne 5 (some 10) (by decide)⟩

/-- C4 amended: when broker_id resolves to an existing broker, a topic
with the same (name, broker_id) pair exists, and the conflicting name is
carried by exactly one topic row in the whole table, register_topic fails
with the Conflict error carrying the id of that pre-existing row and
creates no new Topic row; when the same name also exists under another
broker, the name-only recovery query matches several rows and
MultipleResultsFound propagates instead (still creating no row). -/
theorem register_topic_conflict_reports_existing_id
    (db : DB) (broker_id : Nat) (data : TopicBase)
    (hb : ∃ b, db.brokers.filter (fun x => x.id == broker_id) = [b])
    (t : TopicDetails)
    (hname : db.topics.filter (fun x => x.topic_name == data.name) = [t])
    (hconf : t.broker_id = broker_id) :
    register_topic db broker_id data =
      (db, .error (.integrityError
        ("Topic id " ++ toString t.id ++ " already exists."))) := by
  obtain ⟨b, hb⟩ := hb
  have hmem : t ∈ db.topics.filter (fun x => x.topic_name == data.name) := by
    rw [hname]; exact List.mem_singleton.mpr rfl
  rw [List.mem_filter] at hmem
  have hany : db.topics.any
      (fun x => x.topic_name == data.name && x.broker_id == broker_id) = true := by
    rw [List.any_eq_true]
    exact ⟨t, hmem.1, by
      rw [Bool.and_eq_true]
      exact ⟨hmem.2, by rw [hconf]; exact beq_self_eq_true broker_id⟩⟩
  unfold register_topic
  rw [hb, hany, if_pos rfl, hname]

/-- C4 witness: the amended conflict theorem applied to dbLinked, where
telemetry exists only under broker 1, re-registering telemetry under
broker 1. -/
theorem register_topic_conflict_reports_existing_id_witness :
    (∃ b, dbLinked.brokers.filter (fun x => x.id == 1) = [b]) ∧
    dbLinked.topics.filter
      (fun x => x.topic_name ==
        TopicBase.name { name := "telemetry", schema_definition := "s2" }) = [topic1] ∧
    topic1.broker_id = 1 ∧
    register_topic dbLinked 1 { name := "telemetry", schema_definition := "s2" } =
      (dbLinked, .error (.integrityError
        ("Topic id " ++ toString topic1.id ++ " already exists."))) :=
  ⟨⟨broker1, by decide⟩, by decide, by decide,
   register_topic_conflict_reports_existing_id dbLinked 1
     { name := "telemetry", schema_definition := "s2" }
     ⟨broker1, by decide⟩ topic1 (by decide) (by decide)⟩

/-- C5: register_broker succeeds at most once per name: on a database with
no broker of the requested name a valid registration appends exactly one
broker row carrying the requested fields, and on a database whose unique
row of that name is b0 the call fails with the Conflict error carrying the
id of b0 and leaves the database unchanged. -/
theorem register_broker_once_per_name (db : DB) (data : BrokerBase) :
    (db.brokers.filter (fun b => b.broker_name == data.name) = [] →
      ∃ row, register_broker db data true =
        ({ db with brokers := db.brokers ++ [row],
                   nextBrokerId := db.nextBrokerId + 1 },
         .ok (BrokerResponse.from_orm row)) ∧
        row.broker_name = data.name ∧ row.broker_ip = data.ip ∧
        row.broker_port = data.port) ∧
    (∀ b0, db.brokers.filter (fun b => b.broker_name == data.name) = [b0] →
      register_broker db data true =
        (db, .error (.integrityError
          ("Broker id " ++ toString b0.id ++ " already exists.")))) := by
  constructor
  · intro hfresh
    have hany : db.brokers.any (fun b => b.broker_name == data.name) = false := by
      rw [← Bool.not_eq_true, List.any_eq_true]
      rintro ⟨x, hx, hpx⟩
      have : x ∈ db.brokers.filter (fun b => b.broker_name == data.name) :=
        List.mem_filter.mpr ⟨hx, hpx⟩
      rw [hfresh] at this
      exact absurd this (List.not_mem_nil x)
    refine ⟨{ id := db.nextBrokerId, broker_name := data.name,
              broker_ip := data.ip, broker_port := data.port },
            ?_, rfl, rfl, rfl⟩
    unfold register_broker
    rw [hany]
    simp
  · intro b0 hdup
    have hmem : b0 ∈ db.brokers.filter (fun b => b.broker_name == data.name) := by
      rw [hdup]; exact List.mem_singleton.mpr rfl
    rw [List.mem_filter] at hmem
    have hany : db.brokers.any (fun b => b.broker_name == data.name) = true := by
      rw [List.any_eq_true]
      exact ⟨b0, hmem.1, hmem.2⟩
    unfold register_broker
    rw [hany, hdup]
    simp

/-- C5 witness: the fresh half on a database without broker-1 is not
needed; the conflict half applied to dbBase, which already holds broker-1
with id 1, and the fresh half applied to dbLinked with an unused name. -/
theorem register_broker_once_per_name_witness :
    register_broker dbBase
      { name := "broker-1", ip := "10.0.0.9", port := 1 } true =
      (dbBase, .error (.integrityError
        ("Broker id " ++ toString broker1.id ++ " already exists."))) ∧
    (∃ row, register_broker dbLinked
      { name := "broker-9", ip := "10.0.0.9", port := 1 } true =
        ({ dbLinked with brokers := dbLinked.brokers ++ [row],
                         nextBrokerId := dbLinked.nextBrokerId + 1 },
         .ok (BrokerResponse.from_orm row)) ∧
      row.broker_name = BrokerBase.name
        { name := "broker-9", ip := "10.0.0.9", port := 1 } ∧
      row.broker_ip = BrokerBase.ip
        { name := "broker-9", ip := "10.0.0.9", port := 1 } ∧
      row.broker_port = BrokerBase.port
        { name := "broker-9", ip := "10.0.0.9", port := 1 }) :=
  ⟨(register_broker_once_per_name dbBase
      { name := "broker-1", ip := "10.0.0.9", port := 1 }).2 broker1 (by decide),
   (register_broker_once_per_name dbLinked
      { name := "broker-9", ip := "10.0.0.9", port := 1 }).1 (by decide)⟩

/-- C6: for an existing topic id, topic_deregister deletes the topic row
and every link row whose topic_id references it, so no link dangles on the
removed topic and brokers and datasets are untouched; for an absent id it
fails NotFound and changes nothing. -/
theorem topic_deregister_cascades (db : DB) (topic_id : Nat) :
    (db.topics.filter (fun t => t.id == topic_id) = [] →
      topic_deregister db topic_id =
        (db, .error (.noResultFound
          ("Topic not found for the id " ++ toString topic_id)))) ∧
    (∀ t0, db.topics.filter (fun t => t.id == topic_id) = [t0] →
      ∃ db2, topic_deregister db topic_id = (db2, .ok ()) ∧
        db2.topics = db.topics.filter (fun t => !(t.id == topic_id)) ∧
        db2.links = db.links.filter (fun l => !(l.topic_id == topic_id)) ∧
        (∀ l ∈ db2.links, l.topic_id ≠ topic_id) ∧
        (∀ t ∈ db2.topics, t.id ≠ topic_id) ∧
        db2.brokers = db.brokers ∧ db2.datasets = db.datasets) := by
  constructor
  · intro habsent
    unfold topic_deregister
    rw [habsent]
  · intro t0 h1
    have hmem : t0 ∈ db.topics.filter (fun t => t.id == topic_id) := by
      rw [h1]; exact List.mem_singleton.mpr rfl
    rw [List.mem_filter] at hmem
    have hid : t0.id = topic_id := by
      have := hmem.2
      simpa using this
    subst hid
    refine ⟨{ db with
        topics := db.topics.filter (fun t => !(t.id == t0.id)),
        links := db.links.filter (fun l => !(l.topic_id == t0.id)) },
      ?_, rfl, rfl, ?_, ?_, rfl, rfl⟩
    · unfold topic_deregister
      rw [h1]
    · intro l hl
      rw [List.mem_filter] at hl
      simpa using hl.2
    · intro t ht
      rw [List.mem_filter] at ht
      simpa using ht.2

/-- C6 witness: the cascade theorem applied to dbLinked and topic 1, whose
single link row references it. -/
theorem topic_deregister_cascades_witness :
    dbLinked.topics.filter (fun t => t.id == 1) = [topic1] ∧
    (∃ db2, topic_deregister dbLinked 1 = (db2, .ok ()) ∧
      db2.topics = dbLinked.topics.filter (fun t => !(t.id == 1)) ∧
      db2.links = dbLinked.links.filter (fun l => !(l.topic_id == 1)) ∧
      (∀ l ∈ db2.links, l.topic_id ≠ 1) ∧
      (∀ t ∈ db2.topics, t.id ≠ 1) ∧
      db2.brokers = dbLinked.brokers ∧ db2.datasets = dbLinked.datasets) :=
  ⟨by decide, (topic_deregister_cascades dbLinked 1).2 topic1 (by decide)⟩

/-- C7: dataset_message_deregister deletes the optional link and the
dataset as one atomic unit exactly when a dataset with the given id and the
broker discriminator exists: on success both rows are absent and brokers
and topics are untouched; on a commit failure nothing is deleted; and when
no broker-sourced dataset with the id exists it fails NotFound and deletes
nothing. -/
theorem dataset_message_deregister_atomic
    (db : DB) (dataset_id : Nat) (commit_ok : Bool) :
    (db.datasets.filter
        (fun d => d.id == dataset_id &&
          d.data_source_type == BROKER_DATA_SOURCE_TYPE) = [] →
      dataset_message_deregister db dataset_id commit_ok =
        (db, .error (.noResultFound
          ("Dataset not found for id " ++ toString dataset_id)))) ∧
    (∀ d0, db.datasets.filter
        (fun d => d.id == dataset_id &&
          d.data_source_type == BROKER_DATA_SOURCE_TYPE) = [d0] →
      (db.links.filter (fun l => l.dataset_id == d0.id)).length ≤ 1 →
      (commit_ok = false →
        dataset_message_deregister db dataset_id commit_ok =
          (db, .error (.sqlAlchemyError ("commit failed")))) ∧
      (commit_ok = true →
        ∃ db2, dataset_message_deregister db dataset_id commit_ok =
            (db2, .ok ()) ∧
          (∀ d ∈ db2.datasets, d.id ≠ dataset_id) ∧
          (∀ l ∈ db2.links, l.dataset_id ≠ dataset_id) ∧
          db2.brokers = db.brokers ∧ db2.topics = db.topics)) := by
  constructor
  · intro habsent
    unfold dataset_message_deregister
    rw [habsent]
  · intro d0 h1 hl
    have hmem : d0 ∈ db.datasets.filter
        (fun d => d.id == dataset_id &&
          d.data_source_type == BROKER_DATA_SOURCE_TYPE) := by
      rw [h1]; exact List.mem_singleton.mpr rfl
    rw [List.mem_filter] at hmem
    have hid : d0.id = dataset_id := by
      have := hmem.2
      rw [Bool.and_eq_true] at this
      simpa using this.1
    subst hid
    cases hls : db.links.filter (fun l => l.dataset_id == d0.id) with
    | nil =>
        constructor
        · intro hco
          subst hco
          simp only [dataset_message_deregister, h1, hls]
          rfl
        · intro hco
          subst hco
          refine ⟨{ db with
              datasets := db.datasets.filter (fun d => !(d.id == d0.id)) },
            ?_, ?_, ?_, rfl, rfl⟩
          · simp only [dataset_message_deregister, h1, hls, if_pos]
          · intro d hd
            rw [List.mem_filter] at hd
            simpa using hd.2
          · intro l hlmem
            have := List.filter_eq_nil_iff.mp hls l hlmem
            simpa using this
    | cons l rest =>
        cases rest with
        | cons l2 rest2 =>
            exfalso
            rw [hls] at hl
            simp at hl
        | nil =>
            constructor
            · intro hco
              subst hco
              simp only [dataset_message_deregister, h1, hls]
              rfl
            · intro hco
              subst hco
              refine ⟨{ db with
                  links := db.links.filter (fun x => !(x.id == l.id)),
                  datasets := db.datasets.filter (fun d => !(d.id == d0.id)) },
                ?_, ?_, ?_, rfl, rfl⟩
              · simp only [dataset_message_deregister, h1, hls, if_pos]
              · intro d hd
                rw [List.mem_filter] at hd
                simpa using hd.2
              · intro x hx
                rw [List.mem_filter] at hx
                obtain ⟨hxmem, hxid⟩ := hx
                intro hxds
                have hxf : x ∈ db.links.filter (fun y => y.dataset_id == d0.id) :=
                  List.mem_filter.mpr ⟨hxmem, by simpa using hxds⟩
                rw [hls] at hxf
                have hxl : x = l := List.mem_singleton.mp hxf
                rw [hxl] at hxid
                simp at hxid

/-- C7 witness: the atomicity theorem applied to dbLinked and dataset 5
with a succeeding commit. -/
theorem dataset_message_deregister_atomic_witness :
    dbLinked.datasets.filter
      (fun d => d.id == 5 &&
        d.data_source_type == BROKER_DATA_SOURCE_TYPE) = [dataset5] ∧
    (dbLinked.links.filter (fun l => l.dataset_id == dataset5.id)).length ≤ 1 ∧
    (∃ db2, dataset_message_deregister dbLinked 5 true = (db2, .ok ()) ∧
      (∀ d ∈ db2.datasets, d.id ≠ 5) ∧
      (∀ l ∈ db2.links, l.dataset_id ≠ 5) ∧
      db2.brokers = dbLinked.brokers ∧ db2.topics = dbLinked.topics) :=
  ⟨by decide, by decide,
   ((dataset_message_deregister_atomic dbLinked 5 true).2 dataset5
      (by decide) (by decide)).2 rfl⟩

/-- C8: when the dataset resolves to a broker and topic, the consumer
opens, and the poll completes without error, a window in which zero
records arrive makes fetch_dataset_topic_data fail with NoMessagesFound
naming the topic: an error distinct from the NotFound kind, and never an
empty success result. -/
theorem fetch_topic_data_zero_records
    (db : DB) (env : StreamEnv) (dataset_id : Nat) (n : Option Nat)
    (td : BrokerTopicDetails)
    (hres : get_topic_and_broker_details db dataset_id = .ok td)
    (hcr : env.constructor_raises = false)
    (hpr : env.poll_raises = false)
    (hempty : env.partitions = []) :
    (fetch_dataset_topic_data db env dataset_id n).result =
      .error (.noMessagesFound
        ("No messages in stream topic: " ++ td.topic_name)) ∧
    (∀ s, (fetch_dataset_topic_data db env dataset_id n).result ≠
      .error (.noResultFound s)) ∧
    (∀ out, (fetch_dataset_topic_data db env dataset_id n).result ≠
      .ok out) := by
  have hstream : (fetch_stream_data env td n).result =
      .error (.noMessagesFound
        ("No messages in stream topic: " ++ td.topic_name)) := by
    unfold fetch_stream_data
    rw [hcr, hpr, hempty]
    rfl
  have hmain : (fetch_dataset_topic_data db env dataset_id n).result =
      .error (.noMessagesFound
        ("No messages in stream topic: " ++ td.topic_name)) := by
    simp only [fetch_dataset_topic_data, hres, hstream]
  refine ⟨hmain, ?_, ?_⟩
  · intro s h
    rw [hmain] at h
    simp at h
  · intro out h
    rw [hmain] at h
    simp at h

/-- C8 witness: the zero-record theorem applied to the linked database and
an idle window. -/
theorem fetch_topic_data_zero_records_witness :
    get_topic_and_broker_details dbLinked 5 =
      .ok { topic_name := "telemetry", broker_ip := "127.0.0.1",
            broker_port := 9092 } ∧
    (fetch_dataset_topic_data dbLinked envIdle 5 (some 10)).result =
      .error (.noMessagesFound
        ("No messages in stream topic: " ++ BrokerTopicDetails.topic_name
          { topic_name := "telemetry", broker_ip := "127.0.0.1",
            broker_port := 9092 })) :=
  ⟨by rfl,
   (fetch_topic_data_zero_records dbLinked envIdle 5 (some 10)
      { topic_name := "telemetry", broker_ip := "127.0.0.1",
        broker_port := 9092 } (by rfl) rfl rfl rfl).1⟩

/-- C9: update_broker on an existing broker either fails with a Conflict
of the name constraint leaving the database unchanged or replaces exactly
the target row by the patched row, where patching assigns only the
supplied (non-None) fields, keeps the id and every unsupplied field, and
leaves every other row and table untouched; on a nonexistent id it fails
NotFound and changes nothing. -/
theorem update_broker_partial_fields
    (db : DB) (broker_id : Nat) (u : BrokerUpdate) :
    (db.brokers.filter (fun b => b.id == broker_id) = [] →
      update_broker db broker_id u =
        (db, .error (.noResultFound
          ("No BrokerDetails found for ID: " ++ toString broker_id)))) ∧
    (∀ r0, db.brokers.filter (fun b => b.id == broker_id) = [r0] →
      ((∃ m, update_broker db broker_id u = (db, .error (.integrityError m))) ∨
       update_broker db broker_id u =
         ({ db with brokers := (db.brokers.map
             (fun b => if b.id == r0.id then applyBrokerUpdate b u else b)) },
          .ok (BrokerResponse.from_orm (applyBrokerUpdate r0 u))))) ∧
    (∀ r : BrokerDetails,
      (applyBrokerUpdate r u).id = r.id ∧
      (u.broker_name = none →
        (applyBrokerUpdate r u).broker_name = r.broker_name) ∧
      (u.broker_ip = none →
        (applyBrokerUpdate r u).broker_ip = r.broker_ip) ∧
      (u.broker_port = none →
        (applyBrokerUpdate r u).broker_port = r.broker_port)) := by
  refine ⟨?_, ?_, ?_⟩
  · intro habsent
    unfold update_broker
    rw [habsent]
  · intro r0 h1
    by_cases hconf : db.brokers.any
        (fun b => !(b.id == r0.id) &&
          b.broker_name == (applyBrokerUpdate r0 u).broker_name) = true
    · left
      refine ⟨"No BrokerDetails found for ID: " ++ toString broker_id, ?_⟩
      simp only [update_broker, h1, hconf]
      rfl
    · right
      rw [Bool.not_eq_true] at hconf
      simp only [update_broker, h1, hconf]
      rfl
  · intro r
    refine ⟨rfl, ?_, ?_, ?_⟩ <;> intro hnone <;>
      simp [applyBrokerUpdate, hnone]

/-- C9 witness: the partial-update theorem applied to dbBase, broker 1 and
a patch supplying only the name. -/
theorem update_broker_partial_fields_witness :
    dbBase.brokers.filter (fun b => b.id == 1) = [broker1] ∧
    ((∃ m, update_broker dbBase 1
        { broker_name := some ("broker-1b"), broker_ip := none,
          broker_port := none } = (dbBase, .error (.integrityError m))) ∨
     update_broker dbBase 1
        { broker_name := some ("broker-1b"), broker_ip := none,
          broker_port := none } =
       ({ dbBase with brokers := (dbBase.brokers.map
           (fun b => if b.id == broker1.id then applyBrokerUpdate b
             { broker_name := some ("broker-1b"), broker_ip := none,
               broker_port := none } else b)) },
        .ok (BrokerResponse.from_orm (applyBrokerUpdate broker1
          { broker_name := some ("broker-1b"), broker_ip := none,
            broker_port := none })))) ∧
    (applyBrokerUpdate broker2
      { broker_name := some ("broker-1b"), broker_ip := none,
        broker_port := none }).id = broker2.id :=
  ⟨by decide,
   (update_broker_partial_fields dbBase 1
      { broker_name := some ("broker-1b"), broker_ip := none,
        broker_port := none }).2.1 broker1 (by decide),
   ((update_broker_partial_fields dbBase 1
      { broker_name := some ("broker-1b"), broker_ip := none,
        broker_port := none }).2.2 broker2).1⟩

end Cog
